import Mathlib

/-!
Shallow embedding of `src/createjs/shape.js` (the `createjs.Shape` and
`createjs.Bitmap` display-object leaves of the wahid repository).

Modelling conventions:
* JavaScript numbers that the code uses as pixel sizes, coordinates and
  buffer entries are modelled as `Int`.  The only numeric operation the
  embedded code performs besides ring operations and comparisons is
  `offset >> 1` on a value that the guard `offset > 0` has just checked to
  be positive; for a positive (int32-range) value `offset >> 1` is
  floor-halving, i.e. `offset / 2` on nonnegative integers.
* `null`/absent JavaScript references are modelled with `Option`.
* Code paths on which the JavaScript code would dereference `null` (and
  hence throw a `TypeError`) are modelled by functions returning `Option`,
  with `none` standing for the thrown exception.
* The `Float32Array` draw-parameter buffer is modelled as `List Int`
  (all values the code ever stores in it are integers).
  `Float32Array.prototype.set(values)` at offset 0 writes
  `values` over the first `values.length` slots and keeps the rest; it
  throws when `values` is longer than the buffer, which the embedding of
  `setSourceRect` reflects by returning `none` in that case.
* Base-class (`createjs.DisplayObject`) state that `shape.js` reads or
  writes through accessors (`getOwners`, `getCompositionId`,
  `setBoundingBox`, `setDirty`, `isVisible`, nominal bounds, the alpha-map
  filter) is carried as explicit fields of the leaf states; the base-class
  implementations of `hitTestObject`, `layout` and `isVisible` are passed
  in as oracle parameters, since `display_object.js` is not part of the
  sources under verification.
-/

/-- An axis-aligned rectangle `{x, y, width, height}` (`createjs.Rectangle`). -/
structure Rectangle where
  x : Int
  y : Int
  width : Int
  height : Int
deriving DecidableEq, Repr

/-- A bounding box `{minX, minY, maxX, maxY}`, the value pair passed to
`DisplayObject.prototype.setBoundingBox`. -/
structure BoundingBox where
  minX : Int
  minY : Int
  maxX : Int
  maxY : Int
deriving DecidableEq, Repr

/-- A 2-D point (`createjs.Point`); `Shape` accesses `.x`/`.y`, `Bitmap`
accesses the same data through `.v[0]`/`.v[1]`. -/
structure Point where
  x : Int
  y : Int
deriving DecidableEq, Repr

/-- An `HTMLImageElement`/`HTMLCanvasElement` handle; only the dimensions
are observable to the embedded code. -/
structure HTMLImage where
  width : Int
  height : Int
deriving DecidableEq, Repr

namespace DisplayObject

/-- Modelled from the spec: the dirty bitmask has at least two independent
bits, "shape geometry changed" and "mask/clip changed"
(`createjs.DisplayObject.DIRTY_SHAPE` / `DIRTY_MASK`; `display_object.js`
is not under `src/`).  The claims depend only on the two bits being fixed
and independent, not on their numeric values. -/
def DIRTY_SHAPE : Nat := 1

/-- Modelled from the spec: the "mask/clip changed" dirty bit
(`createjs.DisplayObject.DIRTY_MASK`). -/
def DIRTY_MASK : Nat := 2

end DisplayObject

/-- Modelled from the spec: an owner of a mask shape, as reachable through
`DisplayObject.prototype.getOwners` (defined in the missing
`display_object.js`).  Each owner carries its accumulated dirty bitmask;
`setDirty(flag)` accumulates bits (the spec: dirty bits "accumulate until
consumed by a layout pass"). -/
structure Owner where
  dirty : Nat
deriving DecidableEq, Repr

/-- Modelled from the spec: `owner.setDirty(flag)` accumulates the given
dirty bits into the owner's dirty bitmask. -/
def Owner.setDirty (o : Owner) (flag : Nat) : Owner :=
  { o with dirty := o.dirty ||| flag }

/-- A `createjs.Graphics` object as observed by `shape.js`: its bounding
box `box`, whether its render cache is live (`cache`/`uncache`), and the
`isDirty()` flag read by `Shape.prototype.layout`.  (`graphics.js` is not
under `src/`; the cache flag is modelled from the spec: `cache` builds or
refreshes the render cache, `uncache` releases it.) -/
structure Graphics where
  box : BoundingBox
  cached : Bool
  dirty : Bool
deriving DecidableEq, Repr

/-- Modelled from the spec: `graphics.cache(flag)` builds/refreshes the
render cache of the graphics object. -/
def Graphics.cache (g : Graphics) (_flag : Nat) : Graphics :=
  { g with cached := true }

/-- Modelled from the spec: `graphics.uncache()` releases the render cache
of the graphics object. -/
def Graphics.uncache (g : Graphics) : Graphics :=
  { g with cached := false }

/-- Modelled from the spec: `createjs.Composer` (from the missing
`composer.js`) owns an output canvas and blends an alpha map into a source
image (`applyAlphaMap`); `getOutput` returns the output canvas. -/
structure Composer where
  output : HTMLImage
  alphaMap : Option HTMLImage
deriving DecidableEq, Repr

/-- Modelled from the spec: `new createjs.Composer()` creates a composer
with a fresh (empty) output canvas. -/
def Composer.new : Composer :=
  { output := ⟨0, 0⟩, alphaMap := none }

/-- Modelled from the spec: `composer.applyAlphaMap(image, alpha)` blends
`alpha` into `image`; afterwards the composer's output canvas holds the
composited image. -/
def Composer.applyAlphaMap (c : Composer) (image : Option HTMLImage)
    (alpha : HTMLImage) : Composer :=
  { output := image.getD c.output, alphaMap := some alpha }

/-- Modelled from the spec: `composer.getOutput()` returns the composer's
output canvas. -/
def Composer.getOutput (c : Composer) : HTMLImage :=
  c.output

/-- The state of a `createjs.Bitmap` leaf: the fields declared on
`createjs.Bitmap.prototype` plus the base-class (`DisplayObject`) state the
methods in `shape.js` touch.  `listeners` counts the live registrations of
this leaf as an event listener on its image (`createjs.ImageFactory.get`
registers one; `removeListeners` removes them). -/
structure Bitmap where
  image_ : Option HTMLImage
  ready_ : Bool
  source_ : Option Rectangle
  drawValues_ : Option (List Int)
  composer_ : Option Composer
  output_ : Option Nat
  nominalBounds : Option Rectangle
  alphaMapFilter : Option HTMLImage
  boundingBox : BoundingBox
  hitTestPoint_ : Option Point
  hitTestResult_ : Option Nat
  listeners : Nat
deriving DecidableEq, Repr

/-- The prototype state of a fresh `createjs.Bitmap` before
`initializeBitmap_` runs (all prototype defaults are `null`/`false`). -/
def Bitmap.proto : Bitmap where
  image_ := none
  ready_ := false
  source_ := none
  drawValues_ := none
  composer_ := none
  output_ := none
  nominalBounds := none
  alphaMapFilter := none
  boundingBox := ⟨0, 0, 0, 0⟩
  hitTestPoint_ := none
  hitTestResult_ := none
  listeners := 0

/-- Embeds `createjs.Bitmap.prototype.initializeBitmap_(value)` for an already
resolved image `value` (the string branch resolves the URL through
`createjs.ImageFactory.get`, which returns the image and registers this
leaf as a listener; `resolvedViaFactory` tells which branch was taken). -/
def Bitmap.initializeBitmap_ (st : Bitmap) (value : HTMLImage)
    (resolvedViaFactory : Bool := false) : Bitmap :=
  let st := if resolvedViaFactory then { st with listeners := st.listeners + 1 } else st
  let st := { st with image_ := some value }
  let width := value.width
  let height := value.height
  let st := { st with ready_ := width != 0 }
  -- Create a source rectangle lazily (Toolkit-generated subclasses may
  -- have created one already; it must not be overwritten).
  let source := match st.source_ with
    | some s => s
    | none => (⟨0, 0, width, height⟩ : Rectangle)
  let st := { st with source_ := some source }
  let dv : List Int :=
    [source.x, source.y, source.width, source.height, 0, 0, width, height,
     0, 0, 0, 0]
  -- Align this image to the center of its nominal bounds.
  let dv := match st.nominalBounds with
    | some nb =>
      let dv := if nb.width - width > 0 then dv.set 4 ((nb.width - width) / 2) else dv
      if nb.height - height > 0 then dv.set 5 ((nb.height - height) / 2) else dv
    | none => dv
  { st with drawValues_ := some dv, boundingBox := ⟨0, 0, width, height⟩ }

/-- The `createjs.Bitmap` constructor: initializes only when the argument
is non-null (Flash-generated subclasses pass `null` and finish
initialization themselves). -/
def Bitmap.new (value : Option HTMLImage) : Bitmap :=
  match value with
  | none => Bitmap.proto
  | some image => Bitmap.initializeBitmap_ Bitmap.proto image

/-- Embeds `createjs.Bitmap.prototype.getComposer_()`: lazily creates the
composer. -/
def Bitmap.getComposer_ (st : Bitmap) : Composer :=
  match st.composer_ with
  | some c => c
  | none => Composer.new

/-- Embeds `createjs.Bitmap.prototype.getSourceImage_()`: the composer output
when a composer exists, else the raw image. -/
def Bitmap.getSourceImage_ (st : Bitmap) : Option HTMLImage :=
  match st.composer_ with
  | some c => some (Composer.getOutput c)
  | none => st.image_

/-- Embeds `createjs.Bitmap.prototype.getImage()`. -/
def Bitmap.getImage (st : Bitmap) : Option HTMLImage :=
  st.image_

/-- Embeds `createjs.Bitmap.prototype.getSourceRect()`. -/
def Bitmap.getSourceRect (st : Bitmap) : Option Rectangle :=
  st.source_

/-- Embeds `createjs.Bitmap.prototype.setSourceRect(rectangle)`.  Returns `none`
when the JavaScript code would throw (`Float32Array.prototype.set` with a
source longer than the buffer; only possible for buffers shorter than the
8 and 12 slot buffers the code itself allocates). -/
def Bitmap.setSourceRect (st : Bitmap) (rectangle : Rectangle) :
    Option Bitmap :=
  let width := rectangle.width
  let height := rectangle.height
  let st := { st with boundingBox := ⟨0, 0, width, height⟩ }
  let dv := match st.drawValues_ with
    | none => List.replicate 8 (0 : Int)
    | some dv => dv
  if 8 ≤ dv.length then
    some { st with
      drawValues_ := some
        ([rectangle.x, rectangle.y, rectangle.width, rectangle.height,
          0, 0, width, height] ++ dv.drop 8),
      source_ := some rectangle }
  else
    none

/-- Embeds `createjs.Bitmap.prototype.handleAttach(flag)`. -/
def Bitmap.handleAttach (st : Bitmap) (flag : Nat) : Bitmap :=
  if flag == 0 || !st.ready_ then
    st
  else
    match st.alphaMapFilter with
    | some alpha =>
      let c := Composer.applyAlphaMap (Bitmap.getComposer_ st) st.image_ alpha
      { st with composer_ := some c }
    | none => st

/-- Embeds `createjs.Bitmap.prototype.handleDetach()`.  The second component
counts the released resources (one `renderer.uncache` call plus one
`composer.destroy` call at most). -/
def Bitmap.handleDetach (st : Bitmap) : Bitmap × Nat :=
  let image := Bitmap.getSourceImage_ st
  let r :=
    if image.isSome && st.output_.isSome then
      ({ st with output_ := none }, 1)
    else
      (st, 0)
  match r.1.composer_ with
  | some _ => ({ r.1 with composer_ := none }, r.2 + 1)
  | none => r

/-- Embeds `createjs.Bitmap.prototype.setImage(image)`: detach, replace the
backing image, recompute the ready flag (`!!(image && image.width)`), and
attach with flag 1.  The second component is the release count of the
detach step.  Note the method never touches `drawValues_`. -/
def Bitmap.setImage (st : Bitmap) (image : Option HTMLImage) : Bitmap × Nat :=
  let r := Bitmap.handleDetach st
  let st := { r.1 with image_ := image }
  let ready := match image with
    | some i => i.width != 0
    | none => false
  let st := { st with ready_ := ready }
  (Bitmap.handleAttach st 1, r.2)

/-- Embeds `createjs.Bitmap.prototype.handleEvent(event)` for an event of type
`ty` whose target is `target`.  The second component of the result counts
the `createjs.ImageFactory.removeListeners` calls (always exactly one per
invocation).  `none` models the `TypeError` the code would throw when it
reaches the draw-value updates with a null `drawValues_`. -/
def Bitmap.handleEvent (st : Bitmap) (ty : String) (target : HTMLImage) :
    Option (Bitmap × Nat) :=
  let ready := ty == "load"
  let st := { st with listeners := 0, ready_ := ready }
  match st.source_ with
  | none => some ({ st with image_ := none }, 1)
  | some source =>
    if !ready then
      some ({ st with image_ := none }, 1)
    else
      match st.drawValues_ with
      | none => none
      | some dv =>
        let width := target.width
        let height := target.height
        let source := { source with width := width, height := height }
        let dv := (((((dv.set 0 0).set 1 0).set 2 width).set 3 height).set 4 0).set 5 0
        -- Align this image to the center of its nominal bounds.
        let dv := match st.nominalBounds with
          | some nb =>
            let dv := if nb.width - width > 0 then dv.set 4 ((nb.width - width) / 2) else dv
            if nb.height - height > 0 then dv.set 5 ((nb.height - height) / 2) else dv
          | none => dv
        let dv := (dv.set 6 width).set 7 height
        let st := { st with
          source_ := some source,
          drawValues_ := some dv,
          boundingBox := ⟨0, 0, width, height⟩ }
        some (Bitmap.handleAttach st 1, 1)

/-- Embeds `createjs.Bitmap.prototype.isVisible()`; `base` is the result of the
base-class `DisplayObject.prototype.isVisible` call. -/
def Bitmap.isVisible (st : Bitmap) (base : Bool) : Bool :=
  st.ready_ && base

/-- Embeds `createjs.Bitmap.prototype.hitTestObject(point, ...)` under
`createjs.USE_PIXEL_TEST`.  `base` is the result of the base-class
bounding-box test, `inverse` is `getInverse().transformPoint`, and
`alphaAt p` tells whether the pixel of `image_` probed through the 1x1
hit-test canvas at the adjusted local point `p` has nonzero alpha.  The
third component of the result records whether the pixel probe ran. -/
def Bitmap.hitTestObject (st : Bitmap) (base : Option Nat)
    (inverse : Point → Point) (alphaAt : Point → Bool) (point : Point) :
    Option Nat × Bitmap × Bool :=
  match base with
  | none => (none, st, false)
  | some obj =>
    let sample : Bitmap → Option Nat × Bitmap × Bool := fun st =>
      let lp := inverse point
      let lp := match st.source_ with
        | some s => (⟨lp.x + s.x, lp.y + s.y⟩ : Point)
        | none => lp
      let result := if alphaAt lp then some obj else none
      (result, { st with hitTestResult_ := result }, true)
    match st.hitTestPoint_ with
    | some p =>
      if (p.x - point.x) * (p.x - point.x) +
         (p.y - point.y) * (p.y - point.y) ≤ 4 then
        (st.hitTestResult_, st, false)
      else
        sample { st with hitTestPoint_ := some point }
    | none =>
      sample { st with hitTestPoint_ := some point }

/-- The state of a `createjs.Shape` leaf: the fields declared on
`createjs.Shape.prototype` plus the base-class (`DisplayObject`) state the
methods in `shape.js` touch.  `owners` is the value returned by
`this.getOwners()` (a possibly-null array), `compositionId` the value
returned by `this.getCompositionId()`, and `dirty` this node's own
accumulated dirty bitmask (written through `this.setDirty`). -/
structure Shape where
  graphics_ : Option Graphics
  masks_ : Option (List Graphics)
  owners : Option (List Owner)
  compositionId : Nat
  dirty : Nat
  boundingBox : BoundingBox
  hitTestPoint_ : Option Point
  hitTestResult_ : Option Nat
deriving DecidableEq, Repr

/-- Embeds `createjs.Shape.prototype.getGraphics()`. -/
def Shape.getGraphics (st : Shape) : Option Graphics :=
  st.graphics_

/-- Embeds `createjs.Shape.prototype.setGraphics(graphics)`.  The second
component of the result is the trace of `setDirty` calls issued to the
owners: one entry `(i, flag)` per call `owners[i].setDirty(flag)`, in
loop order. -/
def Shape.setGraphics (st : Shape) (graphics : Option Graphics) :
    Shape × List (Nat × Nat) :=
  match st.owners with
  | none => (st, [])
  | some owners =>
    if st.compositionId ≠ 0 then
      let st := { st with graphics_ := graphics }
      match graphics with
      | some g =>
        ({ st with
            boundingBox := ⟨g.box.minX, g.box.minY, g.box.maxX, g.box.maxY⟩,
            owners := some (owners.map
              (fun o => Owner.setDirty o DisplayObject.DIRTY_MASK)) },
         (List.range owners.length).map
           (fun i => (i, DisplayObject.DIRTY_MASK)))
      | none => (st, [])
    else
      (st, [])

/-- Embeds `createjs.Shape.prototype.handleAttach(flag)`.  Returns `none` when
the JavaScript code would throw (`this.graphics_` is null: both
`graphics.cache(flag)` and the unconditional `graphics.box` read
dereference it). -/
def Shape.handleAttach (st : Shape) (flag : Nat) : Option Shape :=
  match st.graphics_ with
  | none => none
  | some graphics =>
    let graphics := if flag ≠ 0 then Graphics.cache graphics flag else graphics
    let masks :=
      if flag ≠ 0 && flag &&& 2 ≠ 0 then
        st.masks_.map (fun ms => ms.map (fun m => Graphics.cache m flag))
      else
        st.masks_
    some { st with
      graphics_ := some graphics,
      masks_ := masks,
      boundingBox := ⟨graphics.box.minX, graphics.box.minY,
                      graphics.box.maxX, graphics.box.maxY⟩ }

/-- Embeds `createjs.Shape.prototype.handleDetach()`.  The second component is
the list of graphics objects released (each has had `uncache()` called on
it just before its reference was dropped). -/
def Shape.handleDetach (st : Shape) : Shape × List Graphics :=
  let r :=
    match st.graphics_ with
    | some g => ({ st with graphics_ := none }, [Graphics.uncache g])
    | none => (st, [])
  match r.1.masks_ with
  | some ms => ({ r.1 with masks_ := none }, r.2 ++ ms.map Graphics.uncache)
  | none => r

/-- Embeds `createjs.Shape.prototype.removeAllChildren(opt_destroy)`: delegates
to `handleDetach`. -/
def Shape.removeAllChildren (st : Shape) : Shape × List Graphics :=
  Shape.handleDetach st

/-- Embeds `createjs.Shape.prototype.layout(renderer, parent, dirty, time,
draw)`.  The base-class layout bookkeeping
(`createjs.Shape.superClass_.layout`) is the oracle `base`, applied to the
updated state and the `dirty`/`time`/`draw` arguments. -/
def Shape.layout (st : Shape) (base : Shape → Nat → Nat → Nat → Nat × Shape)
    (dirty time draw : Nat) : Nat × Shape :=
  match st.graphics_ with
  | none => (0, st)
  | some graphics =>
    let st :=
      if graphics.dirty then
        { st with
          dirty := st.dirty ||| DisplayObject.DIRTY_SHAPE,
          boundingBox := ⟨graphics.box.minX, graphics.box.minY,
                          graphics.box.maxX, graphics.box.maxY⟩ }
      else
        st
    base st dirty time draw

/-- Embeds `createjs.Shape.prototype.addGraphics(graphics)`: appends to the
lazily allocated mask list. -/
def Shape.addGraphics (st : Shape) (graphics : Option Graphics) : Shape :=
  match graphics with
  | none => st
  | some g =>
    match st.masks_ with
    | none => { st with masks_ := some [g] }
    | some ms => { st with masks_ := some (ms ++ [g]) }

/-- Embeds `createjs.Shape.prototype.hitTestObject(point, ...)` under
`createjs.USE_PIXEL_TEST`.  `base` is the result of the base-class
bounding-box test, `inverse` is `getInverse().transformPoint`, and
`graphicsHit p` is `this.graphics_.hitTestObject(p)` (the pixel test of
the graphics object at the local point `p`).  The third component of the
result records whether the pixel test ran. -/
def Shape.hitTestObject (st : Shape) (base : Option Nat)
    (inverse : Point → Point) (graphicsHit : Point → Bool) (point : Point) :
    Option Nat × Shape × Bool :=
  match base with
  | none => (none, st, false)
  | some obj =>
    match st.graphics_ with
    | none => (some obj, st, false)
    | some _ =>
      let sample : Shape → Option Nat × Shape × Bool := fun st =>
        let lp := inverse point
        let result := if graphicsHit lp then some obj else none
        (result, { st with hitTestResult_ := result }, true)
      match st.hitTestPoint_ with
      | some p =>
        if (p.x - point.x) * (p.x - point.x) +
           (p.y - point.y) * (p.y - point.y) ≤ 4 then
          (st.hitTestResult_, st, false)
        else
          sample { st with hitTestPoint_ := some point }
      | none =>
        sample { st with hitTestPoint_ := some point }

/-- Helper: the draw-parameter buffer produced by `initializeBitmap_`, as
a function of the pre-existing source rectangle (or the derived default)
and the optional nominal bounds. -/
theorem Bitmap.initializeBitmap_drawValues (st : Bitmap) (img : HTMLImage) :
    (Bitmap.initializeBitmap_ st img).drawValues_ =
      some [(st.source_.getD ⟨0, 0, img.width, img.height⟩).x,
            (st.source_.getD ⟨0, 0, img.width, img.height⟩).y,
            (st.source_.getD ⟨0, 0, img.width, img.height⟩).width,
            (st.source_.getD ⟨0, 0, img.width, img.height⟩).height,
            (match st.nominalBounds with
             | some nb =>
               if nb.width - img.width > 0 then (nb.width - img.width) / 2 else 0
             | none => 0),
            (match st.nominalBounds with
             | some nb =>
               if nb.height - img.height > 0 then (nb.height - img.height) / 2 else 0
             | none => 0),
            img.width, img.height, 0, 0, 0, 0] := by
  cases hs : st.source_ <;> cases hn : st.nominalBounds <;>
    simp [Bitmap.initializeBitmap_, hs, hn] <;>
    split_ifs <;> simp [List.set]

/-- C1: after `initializeBitmap_` with an image of known size, the
bounding box is `(0, 0, width, height)`, the source rectangle is the
pre-existing one or, when none was supplied, the derived default spanning
the full image, and the draw-parameter buffer is
`[src.x, src.y, src.width, src.height, offsetX, offsetY, width, height,
0, 0, 0, 0]`; in particular a bitmap constructed from a 64x32 ready image
with no source rectangle and no nominal bounds has source rectangle
`(0, 0, 64, 32)` and buffer `[0, 0, 64, 32, 0, 0, 64, 32, 0, 0, 0, 0]`. -/
theorem bitmap_initialize_state (st : Bitmap) (img : HTMLImage) :
    (Bitmap.initializeBitmap_ st img).boundingBox =
      ⟨0, 0, img.width, img.height⟩ ∧
    (Bitmap.initializeBitmap_ st img).source_ =
      some (st.source_.getD ⟨0, 0, img.width, img.height⟩) ∧
    (Bitmap.initializeBitmap_ st img).drawValues_ =
      some [(st.source_.getD ⟨0, 0, img.width, img.height⟩).x,
            (st.source_.getD ⟨0, 0, img.width, img.height⟩).y,
            (st.source_.getD ⟨0, 0, img.width, img.height⟩).width,
            (st.source_.getD ⟨0, 0, img.width, img.height⟩).height,
            (match st.nominalBounds with
             | some nb =>
               if nb.width - img.width > 0 then (nb.width - img.width) / 2 else 0
             | none => 0),
            (match st.nominalBounds with
             | some nb =>
               if nb.height - img.height > 0 then (nb.height - img.height) / 2 else 0
             | none => 0),
            img.width, img.height, 0, 0, 0, 0] ∧
    Bitmap.getSourceRect (Bitmap.new (some ⟨64, 32⟩)) = some ⟨0, 0, 64, 32⟩ ∧
    (Bitmap.new (some ⟨64, 32⟩)).drawValues_ =
      some [0, 0, 64, 32, 0, 0, 64, 32, 0, 0, 0, 0] ∧
    (Bitmap.new (some ⟨64, 32⟩)).ready_ = true := by
  refine ⟨?_, ?_, Bitmap.initializeBitmap_drawValues st img, by decide, by decide,
    by decide⟩
  · cases hs : st.source_ <;> cases hn : st.nominalBounds <;>
      simp [Bitmap.initializeBitmap_, hs, hn]
  · cases hs : st.source_ <;> cases hn : st.nominalBounds <;>
      simp [Bitmap.initializeBitmap_, hs, hn]

/-- C2: immediately after `setSourceRect(r)` (whenever the call returns,
i.e. does not throw), `getSourceRect()` is exactly `r`, the bounding box
is `(0, 0, r.width, r.height)`, and the first eight slots of the
draw-parameter buffer are
`[r.x, r.y, r.width, r.height, 0, 0, r.width, r.height]`. -/
theorem bitmap_setSourceRect_state (st st2 : Bitmap) (r : Rectangle)
    (h : Bitmap.setSourceRect st r = some st2) :
    Bitmap.getSourceRect st2 = some r ∧
    st2.boundingBox = ⟨0, 0, r.width, r.height⟩ ∧
    st2.drawValues_.map (fun l => l.take 8) =
      some [r.x, r.y, r.width, r.height, 0, 0, r.width, r.height] := by
  rcases hdv : st.drawValues_ with _ | l <;>
    simp [Bitmap.setSourceRect, hdv] at h
  · rcases h with ⟨rfl⟩
    refine ⟨rfl, rfl, ?_⟩
    simp [Bitmap.getSourceRect, List.take]
  · rcases h with ⟨hlen, rfl⟩
    refine ⟨rfl, rfl, ?_⟩
    simp [Bitmap.getSourceRect, List.take]

/-- Witness for C2 at a concrete input: a bitmap built from a 64x32 image
with the source rectangle then set to `(1, 2, 3, 4)`. -/
theorem bitmap_setSourceRect_state_witness :
    Bitmap.getSourceRect
        ((Bitmap.setSourceRect (Bitmap.new (some ⟨64, 32⟩)) ⟨1, 2, 3, 4⟩).getD
          Bitmap.proto) = some ⟨1, 2, 3, 4⟩ ∧
    ((Bitmap.setSourceRect (Bitmap.new (some ⟨64, 32⟩)) ⟨1, 2, 3, 4⟩).getD
        Bitmap.proto).boundingBox = ⟨0, 0, 3, 4⟩ := by
  have h : Bitmap.setSourceRect (Bitmap.new (some ⟨64, 32⟩)) ⟨1, 2, 3, 4⟩ =
      some ((Bitmap.setSourceRect (Bitmap.new (some ⟨64, 32⟩)) ⟨1, 2, 3, 4⟩).getD
        Bitmap.proto) := by decide
  exact ⟨(bitmap_setSourceRect_state _ _ _ h).1,
    (bitmap_setSourceRect_state _ _ _ h).2.1⟩

/-- C7: on an image event whose type is not "load" (for example "error"),
`handleEvent` deregisters the leaf as a listener on the image exactly
once, clears the ready flag, nulls the image reference, returns without
throwing, and `isVisible()` is false afterwards whatever the base-class
visibility says. -/
theorem bitmap_handleEvent_failure (st : Bitmap) (ty : String)
    (img : HTMLImage) (h : ty ≠ "load") :
    Bitmap.handleEvent st ty img =
      some ({ st with listeners := 0, ready_ := false, image_ := none }, 1) ∧
    ∀ b : Bool,
      Bitmap.isVisible { st with listeners := 0, ready_ := false, image_ := none }
        b = false := by
  have hb : (ty == "load") = false := beq_eq_false_iff_ne.mpr h
  constructor
  · cases hsrc : st.source_ <;> simp [Bitmap.handleEvent, hb, hsrc]
  · intro b
    simp [Bitmap.isVisible]

/-- Witness for C7: a ready 64x32 bitmap receiving an "error" event. -/
theorem bitmap_handleEvent_failure_witness :
    Bitmap.handleEvent (Bitmap.new (some ⟨64, 32⟩)) "error" ⟨64, 32⟩ =
      some ({ Bitmap.new (some ⟨64, 32⟩) with
                listeners := 0, ready_ := false, image_ := none }, 1) :=
  (bitmap_handleEvent_failure (Bitmap.new (some ⟨64, 32⟩)) "error" ⟨64, 32⟩
    (by decide)).1

/-- C10: `Shape.prototype.layout` with an absent graphics reference
returns 0 immediately, leaves the state (dirty bits, bounding box)
untouched, and never invokes the base-class layout bookkeeping (the
result does not depend on the `base` oracle). -/
theorem shape_layout_null_graphics (st : Shape)
    (base : Shape → Nat → Nat → Nat → Nat × Shape) (dirty time draw : Nat)
    (h : st.graphics_ = none) :
    Shape.layout st base dirty time draw = (0, st) := by
  simp [Shape.layout, h]

/-- Witness for C10: a detached shape laid out with a base oracle that
would return 42 and mutate the state, at concrete arguments. -/
theorem shape_layout_null_graphics_witness :
    Shape.layout
      ⟨none, none, none, 0, 0, ⟨0, 0, 0, 0⟩, none, none⟩
      (fun s _ _ _ => (42, { s with dirty := 99 })) 1 2 3 =
      (0, ⟨none, none, none, 0, 0, ⟨0, 0, 0, 0⟩, none, none⟩) :=
  shape_layout_null_graphics _ _ 1 2 3 rfl

/-- Helper: `Bitmap.handleAttach` never touches the draw-parameter
buffer. -/
theorem Bitmap.handleAttach_drawValues (st : Bitmap) (flag : Nat) :
    (Bitmap.handleAttach st flag).drawValues_ = st.drawValues_ := by
  unfold Bitmap.handleAttach
  split
  · rfl
  · split <;> rfl

/-- Helper: `Bitmap.handleDetach` never touches the draw-parameter
buffer. -/
theorem Bitmap.handleDetach_drawValues (st : Bitmap) :
    (Bitmap.handleDetach st).1.drawValues_ = st.drawValues_ := by
  cases hc : st.composer_ <;> cases hi : st.image_ <;> cases ho : st.output_ <;>
    simp [Bitmap.handleDetach, Bitmap.getSourceImage_, hc, hi, ho]

/-- C3 (amended): at the two sites where the draw-parameter offsets are
computed - `initializeBitmap_` and a successful "load" event in
`handleEvent` - slot 4 is `(nominal.width - image.width) / 2` (floor
division of a positive value) when the nominal width exceeds the image
width and `0` otherwise, and symmetrically for slot 5 with the heights;
but the offsets are NOT recomputed on every backing-image change: a
`setImage` hot swap replaces the image without touching the
draw-parameter buffer at all, leaving the previous offsets stale. -/
theorem bitmap_centering_offsets :
    (∀ (st : Bitmap) (img : HTMLImage) (nb : Rectangle),
      st.nominalBounds = some nb →
      ((Bitmap.initializeBitmap_ st img).drawValues_.getD []).getD 4 0 =
        (if nb.width - img.width > 0 then (nb.width - img.width) / 2 else 0) ∧
      ((Bitmap.initializeBitmap_ st img).drawValues_.getD []).getD 5 0 =
        (if nb.height - img.height > 0 then (nb.height - img.height) / 2 else 0)) ∧
    (∀ (st : Bitmap) (img : HTMLImage) (nb source : Rectangle)
       (v0 v1 v2 v3 v4 v5 v6 v7 v8 v9 v10 v11 : Int),
      st.nominalBounds = some nb →
      st.source_ = some source →
      st.drawValues_ = some [v0, v1, v2, v3, v4, v5, v6, v7, v8, v9, v10, v11] →
      ∃ st2, Bitmap.handleEvent st "load" img = some (st2, 1) ∧
        (st2.drawValues_.getD []).getD 4 0 =
          (if nb.width - img.width > 0 then (nb.width - img.width) / 2 else 0) ∧
        (st2.drawValues_.getD []).getD 5 0 =
          (if nb.height - img.height > 0 then (nb.height - img.height) / 2 else 0)) ∧
    (∀ (st : Bitmap) (image : Option HTMLImage),
      (Bitmap.setImage st image).1.drawValues_ = st.drawValues_) := by
  refine ⟨?_, ?_, ?_⟩
  · intro st img nb h
    rw [Bitmap.initializeBitmap_drawValues]
    simp [h]
  · intro st img nb source v0 v1 v2 v3 v4 v5 v6 v7 v8 v9 v10 v11 hn hsrc hdv
    simp only [Bitmap.handleEvent, hsrc, hdv, hn, beq_self_eq_true, Bool.not_true,
      Bool.false_eq_true, if_false]
    refine ⟨_, rfl, ?_, ?_⟩ <;>
      rw [Bitmap.handleAttach_drawValues] <;>
      split_ifs <;> simp [List.set]
  · intro st image
    simp [Bitmap.setImage, Bitmap.handleAttach_drawValues,
      Bitmap.handleDetach_drawValues]

/-- Witness for C3 (amended): nominal bounds 100x50.  A 64x32 image is
centered at offsets (18, 9) by `initializeBitmap_`; a load event
reporting a 40x60 image recenters at offsets (30, 0) (the height exceeds
the bounds, so the vertical offset is 0); a `setImage` hot swap leaves
the buffer untouched. -/
theorem bitmap_centering_offsets_witness :
    ((Bitmap.initializeBitmap_
        { Bitmap.proto with nominalBounds := some ⟨0, 0, 100, 50⟩ }
        ⟨64, 32⟩).drawValues_.getD []).getD 4 0 = 18 ∧
    ((Bitmap.initializeBitmap_
        { Bitmap.proto with nominalBounds := some ⟨0, 0, 100, 50⟩ }
        ⟨64, 32⟩).drawValues_.getD []).getD 5 0 = 9 ∧
    (∃ st2,
      Bitmap.handleEvent
        (Bitmap.initializeBitmap_
          { Bitmap.proto with nominalBounds := some ⟨0, 0, 100, 50⟩ }
          ⟨64, 32⟩) "load" ⟨40, 60⟩ = some (st2, 1) ∧
      (st2.drawValues_.getD []).getD 4 0 = 30 ∧
      (st2.drawValues_.getD []).getD 5 0 = 0) ∧
    (Bitmap.setImage (Bitmap.new (some ⟨64, 32⟩)) (some ⟨40, 60⟩)).1.drawValues_ =
      (Bitmap.new (some ⟨64, 32⟩)).drawValues_ := by
  have ha := bitmap_centering_offsets.1
    { Bitmap.proto with nominalBounds := some ⟨0, 0, 100, 50⟩ }
    ⟨64, 32⟩ ⟨0, 0, 100, 50⟩ (by decide)
  obtain ⟨st2, heq, h4, h5⟩ := bitmap_centering_offsets.2.1
    (Bitmap.initializeBitmap_
      { Bitmap.proto with nominalBounds := some ⟨0, 0, 100, 50⟩ } ⟨64, 32⟩)
    ⟨40, 60⟩ ⟨0, 0, 100, 50⟩ ⟨0, 0, 64, 32⟩ 0 0 64 32 18 9 64 32 0 0 0 0
    (by decide) (by decide) (by decide)
  refine ⟨?_, ?_, ⟨st2, heq, ?_, ?_⟩, ?_⟩
  · rw [ha.1]; decide
  · rw [ha.2]; decide
  · rw [h4]; decide
  · rw [h5]; decide
  · exact bitmap_centering_offsets.2.2 (Bitmap.new (some ⟨64, 32⟩))
      (some ⟨40, 60⟩)

/-- Counterexample to C3 as stated: the offsets are not recomputed when
the backing image changes.  A bitmap with nominal bounds 100x50 is
initialized from a 64x32 image (offsets (18, 9)); `setImage` then swaps
in a 40x60 image, after which the draw-parameter buffer is bitwise
unchanged: slot 4 still holds the stale 18 instead of the recomputed
`floor((100 - 40) / 2) = 30` the claim requires for the new image. -/
theorem bitmap_centering_offsets_cex :
    (Bitmap.setImage
      (Bitmap.initializeBitmap_
        { Bitmap.proto with nominalBounds := some ⟨0, 0, 100, 50⟩ }
        ⟨64, 32⟩) (some ⟨40, 60⟩)).1.image_ = some ⟨40, 60⟩ ∧
    (Bitmap.setImage
      (Bitmap.initializeBitmap_
        { Bitmap.proto with nominalBounds := some ⟨0, 0, 100, 50⟩ }
        ⟨64, 32⟩) (some ⟨40, 60⟩)).1.drawValues_ =
      (Bitmap.initializeBitmap_
        { Bitmap.proto with nominalBounds := some ⟨0, 0, 100, 50⟩ }
        ⟨64, 32⟩).drawValues_ ∧
    ((Bitmap.setImage
      (Bitmap.initializeBitmap_
        { Bitmap.proto with nominalBounds := some ⟨0, 0, 100, 50⟩ }
        ⟨64, 32⟩) (some ⟨40, 60⟩)).1.drawValues_.getD []).getD 4 0 = 18 ∧
    ¬ (((Bitmap.setImage
      (Bitmap.initializeBitmap_
        { Bitmap.proto with nominalBounds := some ⟨0, 0, 100, 50⟩ }
        ⟨64, 32⟩) (some ⟨40, 60⟩)).1.drawValues_.getD []).getD 4 0 =
        (if (100 : Int) - 40 > 0 then ((100 : Int) - 40) / 2 else 0)) := by
  refine ⟨by decide, by decide, by decide, by decide⟩

/-- C4: `handleDetach` on a Shape nils both the graphics reference and
the mask list after releasing (uncaching) them, so a second call is a
no-op that releases nothing; `handleDetach` on a Bitmap destroys the
composer, nils the renderer-cache pointer whenever a source image exists
to uncache, keeps the image handle, and a second call is a no-op that
releases nothing.  In particular `handleAttach(1)` followed by
`handleDetach()` leaves no live cached resource. -/
theorem attach_detach_lifecycle :
    (∀ st : Shape,
      (Shape.handleDetach st).1.graphics_ = none ∧
      (Shape.handleDetach st).1.masks_ = none ∧
      Shape.handleDetach (Shape.handleDetach st).1 =
        ((Shape.handleDetach st).1, []) ∧
      ∀ g ∈ (Shape.handleDetach st).2, g.cached = false) ∧
    (∀ st st2 : Shape, Shape.handleAttach st 1 = some st2 →
      (Shape.handleDetach st2).1.graphics_ = none ∧
      (Shape.handleDetach st2).1.masks_ = none) ∧
    (∀ st : Bitmap,
      (Bitmap.handleDetach st).1.composer_ = none ∧
      (Bitmap.handleDetach st).1.image_ = st.image_ ∧
      (st.image_.isSome ∨ st.composer_.isSome →
        (Bitmap.handleDetach st).1.output_ = none) ∧
      Bitmap.handleDetach (Bitmap.handleDetach st).1 =
        ((Bitmap.handleDetach st).1, 0)) ∧
    (∀ st : Bitmap, st.image_.isSome →
      (Bitmap.handleDetach (Bitmap.handleAttach st 1)).1.output_ = none ∧
      (Bitmap.handleDetach (Bitmap.handleAttach st 1)).1.composer_ = none ∧
      (Bitmap.handleDetach (Bitmap.handleAttach st 1)).1.image_ = st.image_) := by
  have hshape : ∀ st : Shape,
      (Shape.handleDetach st).1.graphics_ = none ∧
      (Shape.handleDetach st).1.masks_ = none ∧
      Shape.handleDetach (Shape.handleDetach st).1 =
        ((Shape.handleDetach st).1, []) ∧
      ∀ g ∈ (Shape.handleDetach st).2, g.cached = false := by
    intro st
    cases hg : st.graphics_ <;> cases hm : st.masks_ <;>
      simp [Shape.handleDetach, Graphics.uncache, hg, hm]
  have hbitmap : ∀ st : Bitmap,
      (Bitmap.handleDetach st).1.composer_ = none ∧
      (Bitmap.handleDetach st).1.image_ = st.image_ ∧
      (st.image_.isSome ∨ st.composer_.isSome →
        (Bitmap.handleDetach st).1.output_ = none) ∧
      Bitmap.handleDetach (Bitmap.handleDetach st).1 =
        ((Bitmap.handleDetach st).1, 0) := by
    intro st
    cases hc : st.composer_ <;> cases hi : st.image_ <;> cases ho : st.output_ <;>
      simp [Bitmap.handleDetach, Bitmap.getSourceImage_, hc, hi, ho]
  refine ⟨hshape, ?_, hbitmap, ?_⟩
  · intro st st2 _
    exact ⟨(hshape st2).1, (hshape st2).2.1⟩
  · intro st hi
    have him : (Bitmap.handleAttach st 1).image_ = st.image_ := by
      unfold Bitmap.handleAttach
      split
      · rfl
      · split <;> rfl
    refine ⟨?_, (hbitmap (Bitmap.handleAttach st 1)).1,
      ((hbitmap (Bitmap.handleAttach st 1)).2.1).trans him⟩
    exact (hbitmap (Bitmap.handleAttach st 1)).2.2.1 (Or.inl (him ▸ hi))

/-- Witness for C4 at concrete states: a cached shape with one mask and a
ready bitmap with an alpha-map filter, attached with flag 1 and then
detached. -/
theorem attach_detach_lifecycle_witness :
    (Shape.handleDetach
      ⟨some ⟨⟨0, 0, 4, 4⟩, true, false⟩, some [⟨⟨0, 0, 2, 2⟩, true, false⟩],
       none, 0, 0, ⟨0, 0, 4, 4⟩, none, none⟩).1.graphics_ = none ∧
    (Bitmap.handleDetach (Bitmap.handleAttach
      { Bitmap.proto with
          image_ := some ⟨8, 8⟩, ready_ := true,
          alphaMapFilter := some ⟨8, 8⟩, output_ := some 3 } 1)).1.output_ =
      none ∧
    (Bitmap.handleDetach (Bitmap.handleAttach
      { Bitmap.proto with
          image_ := some ⟨8, 8⟩, ready_ := true,
          alphaMapFilter := some ⟨8, 8⟩, output_ := some 3 } 1)).1.composer_ =
      none := by
  refine ⟨(attach_detach_lifecycle.1 _).1, ?_, ?_⟩
  · exact (attach_detach_lifecycle.2.2.2 _ (by decide)).1
  · exact (attach_detach_lifecycle.2.2.2 _ (by decide)).2.1

/-- Helper: in the trace `[(0, m), (1, m), ..., (n-1, m)]` each index
below `n` occurs exactly once. -/
theorem count_range_pair (n i m : Nat) :
    ((List.range n).map (fun j => (j, m))).count (i, m) =
      if i < n then 1 else 0 := by
  induction n with
  | zero => simp
  | succ k ih =>
    rw [List.range_succ, List.map_append, List.count_append, ih]
    have hone : ([((k, m) : Nat × Nat)].count (i, m)) =
        if i = k then 1 else 0 := by
      by_cases hik : i = k
      · subst hik; simp
      · simp [List.count_cons, hik]
    rw [List.map_cons, List.map_nil, hone]
    split_ifs <;> omega

/-- C5: on a shape with a present owners list and a non-zero composition
id (a live mask), setting a non-null graphics replaces the owned
graphics, applies the new graphics' bounding box as the node's bounding
box, and issues exactly one "mask changed" dirty mark per owner (one
`setDirty(DIRTY_MASK)` call for each owner index). -/
theorem shape_setGraphics_mask_dirty (st : Shape) (g : Graphics)
    (os : List Owner) (ho : st.owners = some os) (_hne : os ≠ [])
    (hc : st.compositionId ≠ 0) :
    (Shape.setGraphics st (some g)).1.graphics_ = some g ∧
    (Shape.setGraphics st (some g)).1.boundingBox = g.box ∧
    (Shape.setGraphics st (some g)).1.owners =
      some (os.map (fun o => Owner.setDirty o DisplayObject.DIRTY_MASK)) ∧
    (Shape.setGraphics st (some g)).2 =
      (List.range os.length).map (fun i => (i, DisplayObject.DIRTY_MASK)) ∧
    (∀ i : Nat,
      (Shape.setGraphics st (some g)).2.count (i, DisplayObject.DIRTY_MASK) =
        if i < os.length then 1 else 0) := by
  have hmain : Shape.setGraphics st (some g) =
      ({ st with
          graphics_ := some g,
          boundingBox := ⟨g.box.minX, g.box.minY, g.box.maxX, g.box.maxY⟩,
          owners := some (os.map
            (fun o => Owner.setDirty o DisplayObject.DIRTY_MASK)) },
       (List.range os.length).map (fun i => (i, DisplayObject.DIRTY_MASK))) := by
    simp [Shape.setGraphics, ho, hc]
  rw [hmain]
  refine ⟨rfl, rfl, rfl, rfl, ?_⟩
  intro i
  exact count_range_pair os.length i DisplayObject.DIRTY_MASK

/-- Witness for C5: a mask shape with exactly one owner receives a new
graphics; exactly one mask-changed dirty mark is issued on that owner. -/
theorem shape_setGraphics_mask_dirty_witness :
    (Shape.setGraphics
      ⟨some ⟨⟨0, 0, 1, 1⟩, false, false⟩, none, some [⟨0⟩], 1, 0,
       ⟨0, 0, 0, 0⟩, none, none⟩
      (some ⟨⟨0, 0, 10, 10⟩, false, false⟩)).1.graphics_ =
      some ⟨⟨0, 0, 10, 10⟩, false, false⟩ ∧
    (Shape.setGraphics
      ⟨some ⟨⟨0, 0, 1, 1⟩, false, false⟩, none, some [⟨0⟩], 1, 0,
       ⟨0, 0, 0, 0⟩, none, none⟩
      (some ⟨⟨0, 0, 10, 10⟩, false, false⟩)).2.count
        (0, DisplayObject.DIRTY_MASK) = 1 := by
  have h := shape_setGraphics_mask_dirty
    ⟨some ⟨⟨0, 0, 1, 1⟩, false, false⟩, none, some [⟨0⟩], 1, 0,
     ⟨0, 0, 0, 0⟩, none, none⟩
    ⟨⟨0, 0, 10, 10⟩, false, false⟩ [⟨0⟩] rfl (by decide) (by decide)
  refine ⟨h.1, ?_⟩
  rw [h.2.2.2.2 0]
  decide

/-- Helper: when a Shape hit test actually ran the pixel test, the
graphics reference was present and the call stored the query point and
the sampled result in the memo. -/
theorem Shape.hitSampledShape (st : Shape) (obj : Nat)
    (inv : Point → Point) (ghit : Point → Bool) (pt : Point)
    (hs : (Shape.hitTestObject st (some obj) inv ghit pt).2.2 = true) :
    (∃ g, st.graphics_ = some g) ∧
    Shape.hitTestObject st (some obj) inv ghit pt =
      ((if ghit (inv pt) then some obj else none),
       { st with
          hitTestPoint_ := some pt,
          hitTestResult_ := if ghit (inv pt) then some obj else none },
       true) := by
  cases hg : st.graphics_ with
  | none => simp [Shape.hitTestObject, hg] at hs
  | some g =>
    refine ⟨⟨g, rfl⟩, ?_⟩
    cases hp : st.hitTestPoint_ with
    | none => simp [Shape.hitTestObject, hg, hp]
    | some p =>
      by_cases hd : (p.x - pt.x) * (p.x - pt.x) +
          (p.y - pt.y) * (p.y - pt.y) ≤ 4
      · simp [Shape.hitTestObject, hg, hp, hd] at hs
      · simp [Shape.hitTestObject, hg, hp, hd]

/-- Helper: when a Bitmap hit test actually ran the pixel probe, the call
stored the query point and the probed result in the memo. -/
theorem Bitmap.hitSampledBitmap (st : Bitmap) (obj : Nat)
    (inv : Point → Point) (aAt : Point → Bool) (pt : Point)
    (hs : (Bitmap.hitTestObject st (some obj) inv aAt pt).2.2 = true) :
    Bitmap.hitTestObject st (some obj) inv aAt pt =
      ((if aAt (match st.source_ with
                | some s => (⟨(inv pt).x + s.x, (inv pt).y + s.y⟩ : Point)
                | none => inv pt) then some obj else none),
       { st with
          hitTestPoint_ := some pt,
          hitTestResult_ :=
            if aAt (match st.source_ with
                    | some s => (⟨(inv pt).x + s.x, (inv pt).y + s.y⟩ : Point)
                    | none => inv pt) then some obj else none },
       true) := by
  cases hp : st.hitTestPoint_ with
  | none => cases hsrc : st.source_ <;> simp [Bitmap.hitTestObject, hp, hsrc]
  | some p =>
    by_cases hd : (p.x - pt.x) * (p.x - pt.x) +
        (p.y - pt.y) * (p.y - pt.y) ≤ 4
    · simp [Bitmap.hitTestObject, hp, hd] at hs
    · cases hsrc : st.source_ <;> simp [Bitmap.hitTestObject, hp, hd, hsrc]

/-- C6 (amended): for Shape and Bitmap pixel-mode hit tests whose
bounding-box pre-check passes, if the first query at P1 ran the pixel
test (so the memoized point is P1), then a consecutive query at P2 with
squared distance at most 4 from P1 returns the identical cached result
without running the pixel test and without changing the state; and any
query at squared distance more than 4 from the *memoized* point replaces
the memoized point with the query point and re-runs the pixel test. -/
theorem hitTest_memoization :
    (∀ (st : Shape) (obj obj2 : Nat) (inv inv2 : Point → Point)
       (ghit ghit2 : Point → Bool) (P1 P2 : Point),
      (Shape.hitTestObject st (some obj) inv ghit P1).2.2 = true →
      (P1.x - P2.x) * (P1.x - P2.x) + (P1.y - P2.y) * (P1.y - P2.y) ≤ 4 →
      Shape.hitTestObject (Shape.hitTestObject st (some obj) inv ghit P1).2.1
          (some obj2) inv2 ghit2 P2 =
        ((Shape.hitTestObject st (some obj) inv ghit P1).1,
         (Shape.hitTestObject st (some obj) inv ghit P1).2.1, false)) ∧
    (∀ (st : Shape) (g : Graphics) (obj : Nat) (inv : Point → Point)
       (ghit : Point → Bool) (p P : Point),
      st.graphics_ = some g → st.hitTestPoint_ = some p →
      ¬ ((p.x - P.x) * (p.x - P.x) + (p.y - P.y) * (p.y - P.y) ≤ 4) →
      (Shape.hitTestObject st (some obj) inv ghit P).2.2 = true ∧
      (Shape.hitTestObject st (some obj) inv ghit P).2.1.hitTestPoint_ =
        some P) ∧
    (∀ (st : Bitmap) (obj obj2 : Nat) (inv inv2 : Point → Point)
       (aAt aAt2 : Point → Bool) (P1 P2 : Point),
      (Bitmap.hitTestObject st (some obj) inv aAt P1).2.2 = true →
      (P1.x - P2.x) * (P1.x - P2.x) + (P1.y - P2.y) * (P1.y - P2.y) ≤ 4 →
      Bitmap.hitTestObject (Bitmap.hitTestObject st (some obj) inv aAt P1).2.1
          (some obj2) inv2 aAt2 P2 =
        ((Bitmap.hitTestObject st (some obj) inv aAt P1).1,
         (Bitmap.hitTestObject st (some obj) inv aAt P1).2.1, false)) ∧
    (∀ (st : Bitmap) (obj : Nat) (inv : Point → Point) (aAt : Point → Bool)
       (p P : Point),
      st.hitTestPoint_ = some p →
      ¬ ((p.x - P.x) * (p.x - P.x) + (p.y - P.y) * (p.y - P.y) ≤ 4) →
      (Bitmap.hitTestObject st (some obj) inv aAt P).2.2 = true ∧
      (Bitmap.hitTestObject st (some obj) inv aAt P).2.1.hitTestPoint_ =
        some P) := by
  refine ⟨?_, ?_, ?_, ?_⟩
  · intro st obj obj2 inv inv2 ghit ghit2 P1 P2 hs hd
    obtain ⟨⟨g, hg⟩, heq⟩ := Shape.hitSampledShape st obj inv ghit P1 hs
    rw [heq]
    simp [Shape.hitTestObject, hg, hd]
  · intro st g obj inv ghit p P hg hp hd
    cases hsrc : st.graphics_ <;> simp [Shape.hitTestObject, hg, hp, hd]
  · intro st obj obj2 inv inv2 aAt aAt2 P1 P2 hs hd
    have heq := Bitmap.hitSampledBitmap st obj inv aAt P1 hs
    rw [heq]
    simp [Bitmap.hitTestObject, hd]
  · intro st obj inv aAt p P hp hd
    cases hsrc : st.source_ <;> simp [Bitmap.hitTestObject, hp, hd, hsrc]

/-- Witness for C6 (amended) at concrete inputs: a fresh-memo shape and
bitmap queried at (0,0) then (1,1) (squared distance 2), and a
memoized-at-(0,0) shape and bitmap queried at (5,5) (squared distance
50). -/
theorem hitTest_memoization_witness :
    (Shape.hitTestObject
        (Shape.hitTestObject
          ⟨some ⟨⟨0, 0, 1, 1⟩, false, false⟩, none, none, 0, 0, ⟨0, 0, 0, 0⟩,
           none, none⟩ (some 5) (fun q => q) (fun _ => true) ⟨0, 0⟩).2.1
        (some 5) (fun q => q) (fun _ => true) ⟨1, 1⟩ =
      ((Shape.hitTestObject
          ⟨some ⟨⟨0, 0, 1, 1⟩, false, false⟩, none, none, 0, 0, ⟨0, 0, 0, 0⟩,
           none, none⟩ (some 5) (fun q => q) (fun _ => true) ⟨0, 0⟩).1,
       (Shape.hitTestObject
          ⟨some ⟨⟨0, 0, 1, 1⟩, false, false⟩, none, none, 0, 0, ⟨0, 0, 0, 0⟩,
           none, none⟩ (some 5) (fun q => q) (fun _ => true) ⟨0, 0⟩).2.1,
       false)) ∧
    (Shape.hitTestObject
        ⟨some ⟨⟨0, 0, 1, 1⟩, false, false⟩, none, none, 0, 0, ⟨0, 0, 0, 0⟩,
         some ⟨0, 0⟩, some 7⟩ (some 5) (fun q => q) (fun _ => true)
        ⟨5, 5⟩).2.2 = true ∧
    (Bitmap.hitTestObject
        (Bitmap.hitTestObject Bitmap.proto (some 5) (fun q => q)
          (fun _ => true) ⟨0, 0⟩).2.1
        (some 5) (fun q => q) (fun _ => true) ⟨1, 1⟩ =
      ((Bitmap.hitTestObject Bitmap.proto (some 5) (fun q => q)
          (fun _ => true) ⟨0, 0⟩).1,
       (Bitmap.hitTestObject Bitmap.proto (some 5) (fun q => q)
          (fun _ => true) ⟨0, 0⟩).2.1, false)) ∧
    (Bitmap.hitTestObject
        { Bitmap.proto with hitTestPoint_ := some ⟨0, 0⟩ } (some 5)
        (fun q => q) (fun _ => true) ⟨5, 5⟩).2.1.hitTestPoint_ =
      some ⟨5, 5⟩ := by
  refine ⟨?_, ?_, ?_, ?_⟩
  · exact hitTest_memoization.1 _ 5 5 _ _ _ _ ⟨0, 0⟩ ⟨1, 1⟩ (by decide) (by decide)
  · exact (hitTest_memoization.2.1 _ ⟨⟨0, 0, 1, 1⟩, false, false⟩ 5 _ _ ⟨0, 0⟩
      ⟨5, 5⟩ rfl rfl (by decide)).1
  · exact hitTest_memoization.2.2.1 _ 5 5 _ _ _ _ ⟨0, 0⟩ ⟨1, 1⟩ (by decide)
      (by decide)
  · exact (hitTest_memoization.2.2.2 _ 5 _ _ ⟨0, 0⟩ ⟨5, 5⟩ rfl (by decide)).2

/-- Counterexample to C6 as stated: the shape is memoized at (0,0) with
cached result `some 7`.  Two consecutive queries at P1 = (2,0) and
P2 = (4,0) have squared distance 4 (within the threshold) and the
bounding-box pre-check passes both times, yet the second query re-runs
the pixel test and returns a different result than the first, because the
first query was itself served from the memo at (0,0) and therefore did
not move the memoized point to P1. -/
theorem hitTest_memoization_cex :
    (((⟨2, 0⟩ : Point).x - (⟨4, 0⟩ : Point).x) *
        ((⟨2, 0⟩ : Point).x - (⟨4, 0⟩ : Point).x) +
      ((⟨2, 0⟩ : Point).y - (⟨4, 0⟩ : Point).y) *
        ((⟨2, 0⟩ : Point).y - (⟨4, 0⟩ : Point).y)) ≤ 4 ∧
    (Shape.hitTestObject
      ⟨some ⟨⟨0, 0, 1, 1⟩, false, false⟩, none, none, 0, 0, ⟨0, 0, 0, 0⟩,
       some ⟨0, 0⟩, some 7⟩
      (some 5) (fun q => q) (fun _ => false) ⟨2, 0⟩).2.2 = false ∧
    (Shape.hitTestObject
      (Shape.hitTestObject
        ⟨some ⟨⟨0, 0, 1, 1⟩, false, false⟩, none, none, 0, 0, ⟨0, 0, 0, 0⟩,
         some ⟨0, 0⟩, some 7⟩
        (some 5) (fun q => q) (fun _ => false) ⟨2, 0⟩).2.1
      (some 5) (fun q => q) (fun _ => false) ⟨4, 0⟩).2.2 = true ∧
    (Shape.hitTestObject
      (Shape.hitTestObject
        ⟨some ⟨⟨0, 0, 1, 1⟩, false, false⟩, none, none, 0, 0, ⟨0, 0, 0, 0⟩,
         some ⟨0, 0⟩, some 7⟩
        (some 5) (fun q => q) (fun _ => false) ⟨2, 0⟩).2.1
      (some 5) (fun q => q) (fun _ => false) ⟨4, 0⟩).1 ≠
    (Shape.hitTestObject
      ⟨some ⟨⟨0, 0, 1, 1⟩, false, false⟩, none, none, 0, 0, ⟨0, 0, 0, 0⟩,
       some ⟨0, 0⟩, some 7⟩
      (some 5) (fun q => q) (fun _ => false) ⟨2, 0⟩).1 := by
  refine ⟨by decide, by decide, by decide, by decide⟩

/-- C8 (amended): `setGraphics` on a shape whose owners list is absent
(`getOwners()` returns null) is a silent no-op: the state is returned
unchanged and no owner dirty mark is issued. -/
theorem shape_setGraphics_no_owners (st : Shape) (graphics : Option Graphics)
    (h : st.owners = none) :
    Shape.setGraphics st graphics = (st, []) := by
  simp [Shape.setGraphics, h]

/-- Witness for C8 (amended): an ownerless shape keeps its geometry and
bounding box when a new graphics is set. -/
theorem shape_setGraphics_no_owners_witness :
    Shape.setGraphics
      ⟨some ⟨⟨0, 0, 1, 1⟩, false, false⟩, none, none, 1, 0, ⟨0, 0, 0, 0⟩,
       none, none⟩
      (some ⟨⟨0, 0, 5, 5⟩, false, false⟩) =
    (⟨some ⟨⟨0, 0, 1, 1⟩, false, false⟩, none, none, 1, 0, ⟨0, 0, 0, 0⟩,
      none, none⟩, []) :=
  shape_setGraphics_no_owners _ _ rfl

/-- Counterexample to C8 as stated: a shape whose owners list is present
but *empty* (the JavaScript guard `if (!owners) return;` lets an empty
array through) and whose composition id is non-zero.  `setGraphics`
replaces the owned geometry and the bounding box instead of being a
no-op. -/
theorem shape_setGraphics_empty_owners_cex :
    (Shape.setGraphics
      ⟨some ⟨⟨0, 0, 1, 1⟩, false, false⟩, none, some [], 1, 0, ⟨0, 0, 0, 0⟩,
       none, none⟩
      (some ⟨⟨0, 0, 5, 5⟩, false, false⟩)).1.graphics_ ≠
      some ⟨⟨0, 0, 1, 1⟩, false, false⟩ ∧
    (Shape.setGraphics
      ⟨some ⟨⟨0, 0, 1, 1⟩, false, false⟩, none, some [], 1, 0, ⟨0, 0, 0, 0⟩,
       none, none⟩
      (some ⟨⟨0, 0, 5, 5⟩, false, false⟩)).1.boundingBox ≠ ⟨0, 0, 0, 0⟩ := by
  refine ⟨by decide, by decide⟩

/-- C9 (amended): the buffer allocated by `initializeBitmap_` is always a
12-slot vector, and `setSourceRect` preserves the length of an existing
buffer; but when `setSourceRect` is itself the first allocator (the leaf
was never initialized) it allocates an 8-slot buffer holding only
`[srcX, srcY, srcW, srcH, offsetX, offsetY, boxW, boxH]`, not 12 slots. -/
theorem bitmap_drawValues_slot_count :
    (∀ (st : Bitmap) (img : HTMLImage),
      ((Bitmap.initializeBitmap_ st img).drawValues_).map List.length =
        some 12) ∧
    (∀ (st st2 : Bitmap) (r : Rectangle), st.drawValues_ = none →
      Bitmap.setSourceRect st r = some st2 →
      (st2.drawValues_).map List.length = some 8) ∧
    (∀ (st st2 : Bitmap) (r : Rectangle) (l : List Int),
      st.drawValues_ = some l →
      Bitmap.setSourceRect st r = some st2 →
      (st2.drawValues_).map List.length = some l.length) := by
  refine ⟨?_, ?_, ?_⟩
  · intro st img
    rw [Bitmap.initializeBitmap_drawValues]
    rfl
  · intro st st2 r hdv h
    simp [Bitmap.setSourceRect, hdv] at h
    subst h
    rfl
  · intro st st2 r l hdv h
    simp [Bitmap.setSourceRect, hdv] at h
    obtain ⟨hlen, rfl⟩ := h
    simp
    omega

/-- Witness for C9 (amended): initializing a 64x32 bitmap allocates 12
slots; `setSourceRect` on it keeps 12 slots. -/
theorem bitmap_drawValues_slot_count_witness :
    ((Bitmap.initializeBitmap_ Bitmap.proto ⟨64, 32⟩).drawValues_).map
      List.length = some 12 ∧
    (((Bitmap.setSourceRect (Bitmap.new (some ⟨64, 32⟩)) ⟨1, 2, 3, 4⟩).getD
        Bitmap.proto).drawValues_).map List.length = some 12 := by
  refine ⟨bitmap_drawValues_slot_count.1 Bitmap.proto ⟨64, 32⟩, ?_⟩
  exact bitmap_drawValues_slot_count.2.2 (Bitmap.new (some ⟨64, 32⟩)) _
    ⟨1, 2, 3, 4⟩ [0, 0, 64, 32, 0, 0, 64, 32, 0, 0, 0, 0] (by decide)
    (by decide)

/-- Counterexample to C9 as stated: `setSourceRect` called on a leaf that
was never initialized (constructed with a null argument) allocates a
draw-parameter buffer with 8 slots, not 12. -/
theorem bitmap_drawValues_slot_count_cex :
    (Bitmap.setSourceRect (Bitmap.new none) ⟨1, 2, 3, 4⟩).map
      (fun st => (st.drawValues_).map List.length) = some (some 8) ∧
    ¬ ((Bitmap.setSourceRect (Bitmap.new none) ⟨1, 2, 3, 4⟩).map
        (fun st => (st.drawValues_).map List.length) = some (some 12)) := by
  refine ⟨by decide, by decide⟩
